import Mathlib

/-!
Verification of the runway storefront repository.

The development shallowly embeds the two source files:
* `src/config.ts` — Shopify configuration, `buildEndpoint`, `shopifyFetch`,
  `formatShopifyProduct`;
* `src/unnamed/part_000` — `storefrontQuery`, `getCollectionProducts`, the
  `PANELS` table, the fetch effect of `CardsOverlay` and its crossfade
  panel-selection logic.

Parsed JSON values are modelled by the inductive `Json` below (JSON numbers are
restricted to integers; every JSON value the claims exercise is built from
strings, arrays, objects and null).  JavaScript `undefined` is modelled as
`Option.none` wherever the source can observe it (absent object fields,
optional-chaining results).  Promise rejection / thrown errors are modelled by
`Except String`, the carried string being the error's `message`.  The network
is modelled as a function from the issued request to an `HttpResponse`; each
client returns the list of requests it issued together with its result, so
"no network call was made" is expressed as an empty request list.
Scroll offsets are modelled as exact rationals (ℚ) in place of JavaScript
floating-point numbers.
-/

/-- A parsed JSON value (`await response.json()`), numbers restricted to
integers — no claim exercises a non-integral JSON number. -/
inductive Json where
  | null
  | bool (b : Bool)
  | num (n : Int)
  | str (s : String)
  | arr (items : List Json)
  | obj (fields : List (String × Json))

/-- JavaScript truthiness of a (defined) JSON value: `null`, `false`, `0` and
`""` are falsy; arrays and objects are always truthy. -/
def jsTruthy : Json → Bool
  | Json.null => false
  | Json.bool b => b
  | Json.num n => n ≠ 0
  | Json.str s => s ≠ ""
  | Json.arr _ => true
  | Json.obj _ => true

/-- Truthiness of a possibly-`undefined` value (`undefined` is falsy). -/
def jsTruthyOpt : Option Json → Bool
  | none => false
  | some v => jsTruthy v

/-- First field with the given key, as in JavaScript property lookup. -/
def jsGetFields : List (String × Json) → String → Option Json
  | [], _ => none
  | (k, v) :: rest, key => if k = key then some v else jsGetFields rest key

/-- Property read `v.key` on a non-null value: `undefined` (`none`) unless `v`
is an object carrying the field.  (Reads on primitives yield `undefined` in
JavaScript without throwing.) -/
def jsGet : Json → String → Option Json
  | Json.obj fs, key => jsGetFields fs key
  | _, _ => none

/-- Optional-chaining read `v?.key`: `undefined` and `null` bases short-circuit
to `undefined`. -/
def jsOptGet (v : Option Json) (key : String) : Option Json :=
  match v with
  | none => none
  | some Json.null => none
  | some j => jsGet j key

/-- Optional-chaining index read `v?.[i]`. -/
def jsOptIndexGet (v : Option Json) (i : Nat) : Option Json :=
  match v with
  | none => none
  | some (Json.arr items) => items.get? i
  | some (Json.obj fs) => jsGetFields fs (toString i)
  | some _ => none

/-- Plain (non-optional) property read `v.key`; throws a `TypeError` when the
base is `undefined` or `null`, as JavaScript does. -/
def jsAccess (v : Option Json) (key : String) : Except String (Option Json) :=
  match v with
  | none =>
      Except.error ("TypeError: Cannot read properties of undefined (reading " ++ key ++ ")")
  | some Json.null =>
      Except.error ("TypeError: Cannot read properties of null (reading " ++ key ++ ")")
  | some j => Except.ok (jsGet j key)

mutual

/-- JavaScript string coercion `String(v)` of a JSON value. -/
def jsToString : Json → String
  | Json.null => "null"
  | Json.bool true => "true"
  | Json.bool false => "false"
  | Json.num n => toString n
  | Json.str s => s
  | Json.arr items => jsToStringItems items
  | Json.obj _ => "[object Object]"

/-- `Array.prototype.toString`: elements joined with a comma (`null` prints
as the empty string inside an array). -/
def jsToStringItems : List Json → String
  | [] => ""
  | [Json.null] => ""
  | [x] => jsToString x
  | Json.null :: rest => "," ++ jsToStringItems rest
  | x :: rest => jsToString x ++ "," ++ jsToStringItems rest

end

/-- String coercion of a possibly-`undefined` value, as in a template literal. -/
def jsToStringOpt : Option Json → String
  | none => "undefined"
  | some v => jsToString v

/-- `x || fallback` where the result is coerced to a string (as when it is
passed to `new Error`). -/
def jsOrToString (v : Option Json) (fallback : String) : String :=
  if jsTruthyOpt v then jsToStringOpt v else fallback

/-- `s || fallback` on strings. -/
def jsOrString (s fallback : String) : String :=
  if s = "" then fallback else s

/-- Escape of one character inside a JSON string literal, as performed by
`JSON.stringify`. -/
def jsonEscapeChar (c : Char) : String :=
  if c = '"' then "\\\""
  else if c = '\\' then "\\\\"
  else if c = '\n' then "\\n"
  else if c = '\r' then "\\r"
  else if c = '\t' then "\\t"
  else if c = (Char.ofNat 8) then "\\b"
  else if c = (Char.ofNat 12) then "\\f"
  else if c.toNat < 32 then
    "\\u00" ++ String.mk [Nat.digitChar (c.toNat / 16), Nat.digitChar (c.toNat % 16)]
  else String.singleton c

/-- Escape of a character list inside a JSON string literal. -/
def jsonEscapeList : List Char → String
  | [] => ""
  | c :: cs => jsonEscapeChar c ++ jsonEscapeList cs

/-- Escape of a string inside a JSON string literal. -/
def jsonEscape (s : String) : String :=
  jsonEscapeList s.toList

/-- `n` spaces. -/
def indentStr (n : Nat) : String :=
  String.mk (List.replicate n ' ')

mutual

/-- `JSON.stringify(v, null, 2)` at the given indentation depth. -/
def jsonStringify (ind : Nat) : Json → String
  | Json.null => "null"
  | Json.bool true => "true"
  | Json.bool false => "false"
  | Json.num n => toString n
  | Json.str s => "\"" ++ jsonEscape s ++ "\""
  | Json.arr [] => "[]"
  | Json.arr (x :: xs) =>
      "[\n" ++ jsonStringifyItems (ind + 2) (x :: xs) ++ "\n" ++ indentStr ind ++ "]"
  | Json.obj [] => "\x7b\x7d"
  | Json.obj (f :: fs) =>
      "\x7b\n" ++ jsonStringifyFields (ind + 2) (f :: fs) ++ "\n" ++ indentStr ind ++ "\x7d"

/-- Array items, each on its own indented line, comma-separated. -/
def jsonStringifyItems (ind : Nat) : List Json → String
  | [] => ""
  | [x] => indentStr ind ++ jsonStringify ind x
  | x :: xs =>
      indentStr ind ++ jsonStringify ind x ++ ",\n" ++ jsonStringifyItems ind xs

/-- Object fields, each on its own indented line, comma-separated. -/
def jsonStringifyFields (ind : Nat) : List (String × Json) → String
  | [] => ""
  | [(k, v)] => indentStr ind ++ "\"" ++ jsonEscape k ++ "\": " ++ jsonStringify ind v
  | (k, v) :: fs =>
      indentStr ind ++ "\"" ++ jsonEscape k ++ "\": " ++ jsonStringify ind v ++ ",\n"
        ++ jsonStringifyFields ind fs

end

/-- The `SHOPIFY_CONFIG` record of `src/config.ts` (env-injected strings,
already trimmed). -/
structure ShopifyConfig where
  domain : String
  storefrontAccessToken : String
  apiVersion : String

/-- `USE_LIVE_DATA` of `src/config.ts`. -/
def USE_LIVE_DATA (cfg : ShopifyConfig) : Bool :=
  cfg.domain ≠ "" && cfg.storefrontAccessToken ≠ ""

/-- One POST issued through `fetch`: URL, access-token header and the
`{query, variables}` body. -/
structure HttpRequest where
  url : String
  token : String
  query : String
  vars : Option Json

/-- What `fetch` resolves to: the HTTP status and the outcome of
`response.json()` (`Except.error` carries the engine's parse-error message). -/
structure HttpResponse where
  status : Nat
  body : Except String Json

/-- `response.ok`: status in the 2xx range. -/
def HttpResponse.respOk (r : HttpResponse) : Bool :=
  decide (200 ≤ r.status) && decide (r.status < 300)

/-- `storefrontQuery` of `src/unnamed/part_000` (lines 35–61): config check,
one POST, `await res.json()` (a parse failure is rethrown raw), then
`if (!res.ok || json.errors) throw new Error("Storefront API error: " +
JSON.stringify(json.errors || json, null, 2))`, else `return json.data`.
The returned list collects the requests issued. -/
def storefrontQuery (cfg : ShopifyConfig) (net : HttpRequest → HttpResponse)
    (query : String) (vars : Option Json) :
    List HttpRequest × Except String (Option Json) :=
  if cfg.domain = "" ∨ cfg.storefrontAccessToken = "" then
    ([], Except.error "Missing VITE_SHOPIFY_STORE_DOMAIN or VITE_SHOPIFY_STOREFRONT_TOKEN")
  else
    let endpoint := "https://" ++ cfg.domain ++ "/api/" ++ cfg.apiVersion ++ "/graphql.json"
    let req : HttpRequest :=
      { url := endpoint, token := cfg.storefrontAccessToken,
        query := query, vars := vars }
    let res := net req
    match res.body with
    | Except.error parseMsg => ([req], Except.error parseMsg)
    | Except.ok json =>
        ([req],
          match jsAccess (some json) "errors" with
          | Except.error e => Except.error e
          | Except.ok errs =>
              if ¬ res.respOk ∨ jsTruthyOpt errs then
                Except.error ("Storefront API error: "
                  ++ jsonStringify 0 (match errs with
                      | some e => if jsTruthy e then e else json
                      | none => json))
              else Except.ok (jsGet json "data"))

/-- `s.replace(/^https?:\/\//, '')`. -/
def stripProtocol (s : String) : String :=
  match s.toList with
  | 'h' :: 't' :: 't' :: 'p' :: 's' :: ':' :: '/' :: '/' :: rest => String.mk rest
  | 'h' :: 't' :: 't' :: 'p' :: ':' :: '/' :: '/' :: rest => String.mk rest
  | _ => s

/-- `s.replace(/\/+$/, '')`. -/
def stripTrailingSlashes (s : String) : String :=
  String.mk (s.toList.reverse.dropWhile (fun c => c = '/')).reverse

/-- `buildEndpoint` of `src/config.ts` (lines 112–119): protocol and trailing
slashes stripped off the configured domain; throws when the stripped domain or
the token is empty. -/
def buildEndpoint (cfg : ShopifyConfig) : Except String String :=
  let domain := stripTrailingSlashes (stripProtocol cfg.domain)
  if domain = "" ∨ cfg.storefrontAccessToken = "" then
    Except.error "Missing Shopify configuration (domain or token)"
  else
    Except.ok ("https://" ++ domain ++ "/api/" ++ cfg.apiVersion ++ "/graphql.json")

/-- `shopifyFetch` of `src/config.ts` (lines 121–152): `buildEndpoint`, one
POST, `response.json()` with the parse failure replaced by
`"Invalid response from Shopify"`, then the non-2xx branch
(`json?.errors?.[0]?.message || "Shopify API error (" + status + ")"`), then
the `json.errors` branch (`json.errors[0]?.message || "Shopify API error"`),
else `return json.data`. -/
def shopifyFetch (cfg : ShopifyConfig) (net : HttpRequest → HttpResponse)
    (query : String) (vars : Option Json) :
    List HttpRequest × Except String (Option Json) :=
  match buildEndpoint cfg with
  | Except.error e => ([], Except.error e)
  | Except.ok endpoint =>
    let req : HttpRequest :=
      { url := endpoint, token := cfg.storefrontAccessToken,
        query := query, vars := vars }
    let res := net req
    match res.body with
    | Except.error _ => ([req], Except.error "Invalid response from Shopify")
    | Except.ok json =>
        ([req],
          if ¬ res.respOk then
            Except.error (jsOrToString
              (jsOptGet (jsOptIndexGet (jsOptGet (some json) "errors") 0) "message")
              ("Shopify API error (" ++ toString res.status ++ ")"))
          else
            match jsAccess (some json) "errors" with
            | Except.error e => Except.error e
            | Except.ok errs =>
                if jsTruthyOpt errs then
                  Except.error (jsOrToString
                    (jsOptGet (jsOptIndexGet errs 0) "message")
                    "Shopify API error")
                else Except.ok (jsGet json "data"))

/-- The local `ShopifyProduct` view-model of `src/unnamed/part_000` as shaped
by `getCollectionProducts` (fields are the JavaScript values passed through;
`price` is the template-literal string). -/
structure ShopifyProductVM where
  id : Option Json
  title : Option Json
  handle : Option Json
  imageUrl : Option Json
  price : String

/-- The `CollectionProducts` GraphQL document of `src/unnamed/part_000`
(contents irrelevant to the claims; carried on the request verbatim). -/
def COLLECTION_PRODUCTS_QUERY : String :=
  "\n    query CollectionProducts($handle: String!, $first: Int!) \x7b\n      collectionByHandle(handle: $handle) \x7b\n        title\n        products(first: $first) \x7b\n          edges \x7b\n            node \x7b\n              id\n              title\n              handle\n              featuredImage \x7b\n                url\n                altText\n              \x7d\n              priceRange \x7b\n                minVariantPrice \x7b\n                  amount\n                  currencyCode\n                \x7d\n              \x7d\n            \x7d\n          \x7d\n        \x7d\n      \x7d\n    \x7d\n  "

/-- The arrow body of `col.products.edges.map(({ node }) => ...)`: destructure
`node` from the edge, then shape
`{id, title, handle, imageUrl: node.featuredImage?.url, price:
amount + " " + currencyCode}`. -/
def shapeCollectionEdge (edge : Json) : Except String ShopifyProductVM :=
  match jsAccess (some edge) "node" with
  | Except.error e => Except.error e
  | Except.ok node =>
    match jsAccess node "id" with
    | Except.error e => Except.error e
    | Except.ok idv =>
      match jsAccess node "title" with
      | Except.error e => Except.error e
      | Except.ok titlev =>
        match jsAccess node "handle" with
        | Except.error e => Except.error e
        | Except.ok handlev =>
          match jsAccess node "featuredImage" with
          | Except.error e => Except.error e
          | Except.ok fi =>
            match jsAccess node "priceRange" with
            | Except.error e => Except.error e
            | Except.ok pr =>
              match jsAccess pr "minVariantPrice" with
              | Except.error e => Except.error e
              | Except.ok mv =>
                match jsAccess mv "amount" with
                | Except.error e => Except.error e
                | Except.ok am =>
                  match jsAccess mv "currencyCode" with
                  | Except.error e => Except.error e
                  | Except.ok cu =>
                    Except.ok
                      { id := idv, title := titlev, handle := handlev,
                        imageUrl := jsOptGet fi "url",
                        price := jsToStringOpt am ++ " " ++ jsToStringOpt cu }

/-- `Array.prototype.map` with a throwing callback: elements are shaped left to
right, the first throw aborts. -/
def shapeEdges : List Json → Except String (List ShopifyProductVM)
  | [] => Except.ok []
  | e :: rest =>
    match shapeCollectionEdge e with
    | Except.error err => Except.error err
    | Except.ok vm =>
      match shapeEdges rest with
      | Except.error err => Except.error err
      | Except.ok vms => Except.ok (vm :: vms)

/-- `getCollectionProducts` of `src/unnamed/part_000` (lines 63–120): one
`storefrontQuery`, then `if (!data.collectionByHandle) return []`, else the
edges are shaped.  The `TypeError` cases reproduce JavaScript behaviour when
`col.products.edges` is not an array. -/
def getCollectionProducts (cfg : ShopifyConfig) (net : HttpRequest → HttpResponse)
    (handle : String) (first : Int) :
    List HttpRequest × Except String (List ShopifyProductVM) :=
  match storefrontQuery cfg net COLLECTION_PRODUCTS_QUERY
      (some (Json.obj [("handle", Json.str handle), ("first", Json.num first)])) with
  | (reqs, Except.error e) => (reqs, Except.error e)
  | (reqs, Except.ok dataOpt) =>
    (reqs,
      match jsAccess dataOpt "collectionByHandle" with
      | Except.error e => Except.error e
      | Except.ok colOpt =>
        if ¬ jsTruthyOpt colOpt then Except.ok []
        else
          match jsAccess colOpt "products" with
          | Except.error e => Except.error e
          | Except.ok productsOpt =>
            match jsAccess productsOpt "edges" with
            | Except.error e => Except.error e
            | Except.ok edgesOpt =>
              match edgesOpt with
              | none =>
                  Except.error "TypeError: Cannot read properties of undefined (reading map)"
              | some Json.null =>
                  Except.error "TypeError: Cannot read properties of null (reading map)"
              | some (Json.arr edges) => shapeEdges edges
              | some _ => Except.error "TypeError: col.products.edges.map is not a function")

/-- Decimal value of a digit list (most significant first). -/
def digitsVal (ds : List Char) : Nat :=
  ds.foldl (fun n c => 10 * n + (c.toNat - 48)) 0

/-- Exponent part of a JavaScript float literal after the `e`/`E`; an invalid
exponent is ignored (`parseFloat("12e")` is `12`). -/
def parseFloatExp (cs : List Char) : Int :=
  let signed : Bool × List Char :=
    match cs with
    | '-' :: rest => (true, rest)
    | '+' :: rest => (false, rest)
    | _ => (false, cs)
  let ds := signed.2.takeWhile Char.isDigit
  if ds = [] then 0
  else if signed.1 then -(digitsVal ds : Int) else (digitsVal ds : Int)

/-- The string-processing stage of JavaScript `parseFloat`: sign, integer
digits, fraction digits with their count, and exponent of the longest valid
leading float; `none` for `NaN`.  (The `Infinity` literal is not modelled; no
source string produces it.) -/
def parseFloatParts (s : String) : Option (Bool × Nat × Nat × Nat × Int) :=
  let cs := s.toList.dropWhile (fun c => c = ' ' ∨ c = '\t' ∨ c = '\n' ∨ c = '\r')
  let signed : Bool × List Char :=
    match cs with
    | '-' :: rest => (true, rest)
    | '+' :: rest => (false, rest)
    | _ => (false, cs)
  let cs1 := signed.2
  let ip := cs1.takeWhile Char.isDigit
  let cs2 := cs1.dropWhile Char.isDigit
  let fracSplit : List Char × List Char :=
    match cs2 with
    | '.' :: rest => (rest.takeWhile Char.isDigit, rest.dropWhile Char.isDigit)
    | _ => ([], cs2)
  let fp := fracSplit.1
  let cs3 := fracSplit.2
  if ip = [] ∧ fp = [] then none
  else
    let e : Int :=
      match cs3 with
      | 'e' :: rest => parseFloatExp rest
      | 'E' :: rest => parseFloatExp rest
      | _ => 0
    some (signed.1, digitsVal ip, digitsVal fp, fp.length, e)

/-- JavaScript `parseFloat` as an exact rational, `none` modelling `NaN`. -/
def parseFloatQ (s : String) : Option ℚ :=
  match parseFloatParts s with
  | none => none
  | some (neg, ip, fp, fplen, e) =>
    let q : ℚ := ((ip : ℚ) + (fp : ℚ) / ((10 : ℚ) ^ fplen)) * (10 : ℚ) ^ e
    some (if neg then -q else q)

/-- Thousands grouping over a reversed digit list (`n` counts digits emitted
since the last separator). -/
def groupDigitsAux : List Char → Nat → List Char
  | [], _ => []
  | c :: cs, n =>
      if n = 4 then ',' :: c :: groupDigitsAux cs 2 else c :: groupDigitsAux cs (n + 1)

/-- Digit-rendering stage of `toLocaleString`: given the sign and the value
rounded to thousandths, print comma-grouped integer digits and up to three
fraction digits with trailing zeros dropped. -/
def localeDigitsString (neg : Bool) (scaled : Int) : String :=
  let n : Nat := (scaled / 1000).toNat
  let f : Nat := (scaled % 1000).toNat
  let intPart := String.mk (groupDigitsAux (toString n).toList.reverse 1).reverse
  let fracPart :=
    if f = 0 then ""
    else
      let padded := (if f < 10 then "00" else if f < 100 then "0" else "") ++ toString f
      "." ++ String.mk (padded.toList.reverse.dropWhile (fun c => c = '0')).reverse
  (if neg then "-" else "") ++ intPart ++ fracPart

/-- `Number.prototype.toLocaleString()` in the default `en-US` locale: sign,
comma-grouped integer digits, at most three fraction digits (round half away
from zero, the default `halfExpand` mode), trailing fraction zeros dropped. -/
def toLocaleStringQ (q : ℚ) : String :=
  localeDigitsString (decide (q < 0)) ⌊|q| * 1000 + 1 / 2⌋

/-- `x || fallback` keeping the JavaScript value. -/
def jsOrJson (v : Option Json) (fallback : Json) : Json :=
  match v with
  | some j => if jsTruthy j then j else fallback
  | none => fallback

/-- The `ShopifyProduct` interface of `src/config.ts` (lines 156–167), fields
carrying the JavaScript values `formatShopifyProduct` stores in them.
`priceVal` is the `parseFloat` result with `none` modelling `NaN`. -/
structure FormattedShopifyProduct where
  id : Option Json
  label : String
  price : String
  priceVal : Option ℚ
  imageUrl : Json
  variantId : Option Json
  handle : Option Json
  description : Option Json
  images : List Json
  currencyCode : Json

/-- `formatShopifyProduct` of `src/config.ts` (lines 169–188).  Throwing steps
(`node.title.toUpperCase()`, `.map` on a non-array `images.edges`) surface as
`Except.error` with the corresponding `TypeError` message. -/
def formatShopifyProduct (node : Json) : Except String FormattedShopifyProduct :=
  match node with
  | Json.null => Except.error "TypeError: Cannot read properties of null (reading variants)"
  | _ =>
    let amountChain :=
      jsOptGet (jsOptGet (jsOptIndexGet (jsOptGet (jsGet node "variants") "edges") 0)
        "node") "price"
    let priceJs : Json := jsOrJson (jsOptGet amountChain "amount") (Json.str "0")
    let currency : Json := jsOrJson (jsOptGet amountChain "currencyCode") (Json.str "USD")
    let edgesChain := jsOptGet (jsGet node "images") "edges"
    let imagesE : Except String (List Json) :=
      match edgesChain with
      | none => Except.ok []
      | some Json.null => Except.ok []
      | some (Json.arr xs) =>
          Except.ok ((xs.map (fun e => jsOptGet (jsOptGet (some e) "node") "url")).filterMap
            (fun o =>
              match o with
              | some v => if jsTruthy v then some v else none
              | none => none))
      | some _ => Except.error "TypeError: node.images.edges.map is not a function"
    match imagesE with
    | Except.error e => Except.error e
    | Except.ok images =>
      let image : Json := jsOrJson images.head? (Json.str "")
      let variantId :=
        jsOptGet (jsOptGet (jsOptIndexGet (jsOptGet (jsGet node "variants") "edges") 0)
          "node") "id"
      match jsGet node "title" with
      | none =>
          Except.error "TypeError: Cannot read properties of undefined (reading toUpperCase)"
      | some (Json.str t) =>
          let parsed := parseFloatQ (jsToString priceJs)
          Except.ok
            { id := jsGet node "id",
              label := t.toUpper,
              price := "$" ++ (match parsed with
                | some q => toLocaleStringQ q
                | none => "NaN"),
              priceVal := parsed,
              imageUrl := image,
              variantId := variantId,
              handle := jsGet node "handle",
              description := jsGet node "description",
              images := images,
              currencyCode := currency }
      | some _ => Except.error "TypeError: node.title.toUpperCase is not a function"

/-- A `Panel` entry of `src/unnamed/part_000` (lines 128–132). -/
structure Panel where
  key : String
  title : String
  collectionHandle : String

/-- The `PANELS` table of `src/unnamed/part_000` (lines 134–141). -/
def PANELS : List Panel :=
  [{ key := "hoodies", title := "HOODIES", collectionHandle := "hoodies-1" },
   { key := "shirts", title := "SHIRTS", collectionHandle := "shirts" }]

/-- The two `useState` cells of `CardsOverlay`: `productsByHandle` (a plain
object modelled as an ordered association list) and `error`. -/
structure OverlayState where
  productsByHandle : List (String × List ShopifyProductVM)
  error : Option String

/-- `Promise.all` over already-settled outcomes: the list of values, or the
first rejection in list order (an abstraction of "some rejection wins";
no claim depends on which rejection is reported). -/
def promiseAll {α : Type} : List (Except String α) → Except String (List α)
  | [] => Except.ok []
  | Except.error e :: _ => Except.error e
  | Except.ok a :: rest =>
    match promiseAll rest with
    | Except.error e => Except.error e
    | Except.ok tailv => Except.ok (a :: tailv)

/-- `map[handle] = products` on a plain object: overwrite in place or append. -/
def recordSet (m : List (String × List ShopifyProductVM)) (k : String)
    (v : List ShopifyProductVM) : List (String × List ShopifyProductVM) :=
  if m.any (fun p => p.1 == k) then m.map (fun p => if p.1 == k then (p.1, v) else p)
  else m ++ [(k, v)]

/-- The continuation of the `CardsOverlay` effect after `Promise.all` settles
(`src/unnamed/part_000` lines 204–214): on success, `if (cancelled) return`
then `setProductsByHandle(map)` where the map is rebuilt from scratch; on
rejection, `if (!cancelled) setError(e?.message || "Failed to load products")`.
Totality of this function models that neither path throws. -/
def commitBatch (cancelled : Bool) (st : OverlayState)
    (batch : Except String (List (String × List ShopifyProductVM))) : OverlayState :=
  match batch with
  | Except.ok entries =>
      if cancelled then st
      else { st with productsByHandle := entries.foldl (fun m e => recordSet m e.1 e.2) [] }
  | Except.error msg =>
      if cancelled then st
      else { st with error := some (jsOrString msg "Failed to load products") }

/-- The whole mount effect of `CardsOverlay` (lines 198–220): `setError(null)`
runs synchronously at mount; the fan-out over `PANELS` is gathered by
`Promise.all`; `cancelled` is the flag's value when the batch settles. -/
def cardsOverlayLoadEffect (fetchProducts : String → Except String (List ShopifyProductVM))
    (cancelled : Bool) (prev : OverlayState) : OverlayState :=
  let afterClear : OverlayState := { prev with error := none }
  let batch := promiseAll (PANELS.map (fun p =>
    match fetchProducts p.collectionHandle with
    | Except.error e => Except.error e
    | Except.ok products => Except.ok (p.collectionHandle, products)))
  commitBatch cancelled afterClear batch

/-- `const pos = scroll.offset * total` (line 223). -/
def scrollPosition (offset : ℚ) (total : ℕ) : ℚ :=
  offset * total

/-- `const i = Math.floor(pos)` (line 224). -/
def currentPanelIndex (offset : ℚ) (total : ℕ) : ℤ :=
  ⌊scrollPosition offset total⌋

/-- `const frac = pos - i` (line 225). -/
def crossfadeFrac (offset : ℚ) (total : ℕ) : ℚ :=
  scrollPosition offset total - currentPanelIndex offset total

/-- The per-panel render decision of the JSX (lines 238–244): panel `idx` is
skipped (`none`) unless it is the current panel (opacity `1 - frac`) or the
next one (opacity `frac`). -/
def renderedOpacity (offset : ℚ) (total : ℕ) (idx : ℕ) : Option ℚ :=
  if (idx : ℤ) = currentPanelIndex offset total then some (1 - crossfadeFrac offset total)
  else if (idx : ℤ) = currentPanelIndex offset total + 1 then some (crossfadeFrac offset total)
  else none

/-- Indices of the panels actually rendered (`PANELS.map` emits `null` for the
others), in order. -/
def selectedPanels (offset : ℚ) (total : ℕ) : List ℕ :=
  (List.range total).filter (fun idx => (renderedOpacity offset total idx).isSome)

/-- Sum of the opacities of the rendered panels. -/
def opacitySum (offset : ℚ) (total : ℕ) : ℚ :=
  ((List.range total).filterMap (renderedOpacity offset total)).sum

/-- `pat` occurs as a contiguous substring of `s`. -/
def containsStr (s pat : String) : Prop :=
  pat.toList <:+: s.toList

/-- A well-formed product node as returned inside a collection query response
(`id`/`title`/`handle` strings, optional featured image, minimum-variant
price). -/
def mkCollectionProductNode (id title handle : String) (featured : Option String)
    (amount currency : String) : Json :=
  Json.obj [("id", Json.str id), ("title", Json.str title), ("handle", Json.str handle),
    ("featuredImage", (match featured with
      | none => Json.null
      | some u => Json.obj [("url", Json.str u)])),
    ("priceRange", Json.obj [("minVariantPrice",
      Json.obj [("amount", Json.str amount), ("currencyCode", Json.str currency)])])]

/-- A product node carrying the price 19.5 USD in both shapes the two shaping
paths read: `priceRange.minVariantPrice` (collection path) and
`variants.edges[0].node.price` (single-product path). -/
def dualPriceNode : Json :=
  Json.obj [("id", Json.str "gid1"), ("title", Json.str "Cap"), ("handle", Json.str "cap"),
    ("featuredImage", Json.null),
    ("priceRange", Json.obj [("minVariantPrice",
      Json.obj [("amount", Json.str "19.5"), ("currencyCode", Json.str "USD")])]),
    ("variants", Json.obj [("edges", Json.arr [Json.obj [("node",
      Json.obj [("id", Json.str "var1"), ("price",
        Json.obj [("amount", Json.str "19.5"), ("currencyCode", Json.str "USD")])])]])])]

instance containsStrDecidable (s pat : String) : Decidable (containsStr s pat) :=
  inferInstanceAs (Decidable (pat.toList <:+: s.toList))

lemma buildEndpoint_error (cfg : ShopifyConfig)
    (h : stripTrailingSlashes (stripProtocol cfg.domain) = "" ∨ cfg.storefrontAccessToken = "") :
    buildEndpoint cfg = Except.error "Missing Shopify configuration (domain or token)" := by
  unfold buildEndpoint
  rw [if_pos h]

lemma buildEndpoint_ok (cfg : ShopifyConfig)
    (hd2 : stripTrailingSlashes (stripProtocol cfg.domain) ≠ "")
    (ht : cfg.storefrontAccessToken ≠ "") :
    buildEndpoint cfg = Except.ok ("https://" ++ stripTrailingSlashes (stripProtocol cfg.domain)
      ++ "/api/" ++ cfg.apiVersion ++ "/graphql.json") := by
  unfold buildEndpoint
  rw [if_neg]
  simp [hd2, ht]

lemma jsOrToString_str (s fb : String) :
    jsOrToString (some (Json.str s)) fb = jsOrString s fb := by
  by_cases h : s = "" <;>
    simp [jsOrToString, jsTruthyOpt, jsTruthy, jsToStringOpt, jsToString, jsOrString, h]

lemma parseFloatQ_nineteen_five : parseFloatQ "19.5" = some ((39 : ℚ) / 2) := by
  have h : parseFloatParts "19.5" = some (false, 19, 5, 1, 0) := by decide
  rw [parseFloatQ, h]
  norm_num

lemma parseFloatQ_zero : parseFloatQ "0" = some (0 : ℚ) := by
  have h : parseFloatParts "0" = some (false, 0, 0, 0, 0) := by decide
  rw [parseFloatQ, h]
  norm_num

lemma toLocaleStringQ_nineteen_five : toLocaleStringQ ((39 : ℚ) / 2) = "19.5" := by
  rw [toLocaleStringQ]
  have h1 : (decide ((39 : ℚ) / 2 < 0)) = false := by norm_num
  have h2 : (⌊|(39 : ℚ) / 2| * 1000 + 1 / 2⌋ : ℤ) = 19500 := by
    rw [abs_of_nonneg (by norm_num : (0:ℚ) ≤ 39 / 2)]
    rw [Int.floor_eq_iff]
    norm_num
  rw [h1, h2]
  decide

lemma toLocaleStringQ_zero : toLocaleStringQ (0 : ℚ) = "0" := by
  rw [toLocaleStringQ]
  have h1 : (decide ((0 : ℚ) < 0)) = false := by norm_num
  have h2 : (⌊|(0 : ℚ)| * 1000 + 1 / 2⌋ : ℤ) = 0 := by
    rw [abs_zero]
    rw [Int.floor_eq_iff]
    norm_num
  rw [h1, h2]
  decide

lemma toList_append (s t : String) : (s ++ t).toList = s.toList ++ t.toList :=
  String.data_append s t

lemma containsStr_parts (a p b s : String) (h : a ++ p ++ b = s) : containsStr s p := by
  refine ⟨a.toList, b.toList, ?_⟩
  rw [← h, toList_append, toList_append]

lemma containsStr_empty (s : String) : containsStr s "" := by
  exact ⟨[], s.toList, by simp⟩

lemma containsStr_self (s : String) : containsStr s s := by
  exact ⟨[], [], by simp⟩

lemma containsStr_append_left (x y p : String) (h : containsStr y p) :
    containsStr (x ++ y) p := by
  obtain ⟨a, b, hab⟩ := h
  refine ⟨x.toList ++ a, b, ?_⟩
  rw [toList_append, List.append_assoc, List.append_assoc, ← List.append_assoc a _ _, hab]

lemma containsStr_append_right (x y p : String) (h : containsStr x p) :
    containsStr (x ++ y) p := by
  obtain ⟨a, b, hab⟩ := h
  refine ⟨a, b ++ y.toList, ?_⟩
  rw [toList_append, ← hab]
  simp

lemma jsonEscapeList_id (l : List Char)
    (h : ∀ c ∈ l, jsonEscapeChar c = String.singleton c) :
    jsonEscapeList l = String.mk l := by
  induction l with
  | nil => rfl
  | cons c cs ih =>
    rw [jsonEscapeList, h c (List.mem_cons_self c cs),
      ih (fun x hx => h x (List.mem_cons_of_mem c hx))]
    rfl

lemma jsonEscape_id (s : String) (h : ∀ c ∈ s.toList, jsonEscapeChar c = String.singleton c) :
    jsonEscape s = s := by
  rw [jsonEscape, jsonEscapeList_id s.toList h]
  rfl

lemma containsStr_str_stringify (ind : Nat) (X : String)
    (hX : ∀ c ∈ X.toList, jsonEscapeChar c = String.singleton c) :
    containsStr (jsonStringify ind (Json.str X)) X := by
  have h : jsonStringify ind (Json.str X) = "\"" ++ X ++ "\"" := by
    rw [jsonStringify, jsonEscape_id X hX]
  rw [h]
  exact containsStr_parts "\"" X "\"" _ rfl

lemma containsStr_errobj_stringify (ind : Nat) (X : String) (rest : List (String × Json))
    (hX : ∀ c ∈ X.toList, jsonEscapeChar c = String.singleton c) :
    containsStr (jsonStringify ind (Json.obj (("message", Json.str X) :: rest))) X := by
  have hfields :
      containsStr (jsonStringifyFields (ind + 2) (("message", Json.str X) :: rest)) X := by
    cases rest with
    | nil =>
      rw [jsonStringifyFields]
      exact containsStr_append_left _ _ _ (containsStr_str_stringify _ _ hX)
    | cons f fs =>
      simp only [jsonStringifyFields]
      exact containsStr_append_right _ _ _ (containsStr_append_right _ _ _
        (containsStr_append_left _ _ _ (containsStr_str_stringify _ _ hX)))
  rw [jsonStringify]
  exact containsStr_append_right _ _ _ (containsStr_append_right _ _ _
    (containsStr_append_right _ _ _ (containsStr_append_left _ _ _ hfields)))

lemma containsStr_errarr_stringify (X : String) (rest : List Json)
    (hX : ∀ c ∈ X.toList, jsonEscapeChar c = String.singleton c) :
    containsStr (jsonStringify 0 (Json.arr (Json.obj [("message", Json.str X)] :: rest))) X := by
  have hitems :
      containsStr (jsonStringifyItems 2 (Json.obj [("message", Json.str X)] :: rest)) X := by
    cases rest with
    | nil =>
      rw [jsonStringifyItems]
      exact containsStr_append_left _ _ _ (containsStr_errobj_stringify _ _ _ hX)
    | cons e es =>
      simp only [jsonStringifyItems]
      exact containsStr_append_right _ _ _ (containsStr_append_right _ _ _
        (containsStr_append_left _ _ _ (containsStr_errobj_stringify _ _ _ hX)))
  rw [jsonStringify]
  exact containsStr_append_right _ _ _ (containsStr_append_right _ _ _
    (containsStr_append_right _ _ _ (containsStr_append_left _ _ _ hitems)))

lemma sum_filterMap_range (N : ℕ) (f : ℕ → Option ℚ) :
    ((List.range N).filterMap f).sum = ∑ i ∈ Finset.range N, ((f i).getD 0) := by
  induction N with
  | zero => simp
  | succ n ih =>
    rw [List.range_succ, List.filterMap_append, List.sum_append, Finset.sum_range_succ, ← ih]
    cases h : f n <;> simp [h]

lemma length_filter_range (N : ℕ) (p : ℕ → Bool) :
    ((List.range N).filter p).length = ∑ i ∈ Finset.range N, (if p i then 1 else 0) := by
  induction N with
  | zero => simp
  | succ n ih =>
    rw [List.range_succ, List.filter_append, List.length_append, Finset.sum_range_succ, ← ih]
    cases h : p n <;> simp [h]

lemma sum_double_ite {M : Type} [AddCommMonoid M] (N a b : ℕ) (hab : a ≠ b)
    (u v : M) (ha : a < N) (hb : b < N) :
    (∑ i ∈ Finset.range N, (if i = a then u else if i = b then v else 0)) = u + v := by
  have key : ∀ i, (if i = a then u else if i = b then v else 0)
      = (if i = a then u else 0) + (if i = b then v else 0) := by
    intro i
    by_cases h1 : i = a
    · subst h1
      rw [if_pos rfl, if_pos rfl, if_neg hab, add_zero]
    · rw [if_neg h1, if_neg h1]
      by_cases h2 : i = b <;> simp [h2]
  rw [Finset.sum_congr rfl (fun i _ => key i), Finset.sum_add_distrib,
    Finset.sum_ite_eq' (Finset.range N) a (fun _ => u),
    Finset.sum_ite_eq' (Finset.range N) b (fun _ => v)]
  simp [Finset.mem_range, ha, hb]

lemma sum_single_ite {M : Type} [AddCommMonoid M] (N a : ℕ) (u : M) (ha : a < N) :
    (∑ i ∈ Finset.range N, (if i = a then u else 0)) = u := by
  rw [Finset.sum_ite_eq' (Finset.range N) a (fun _ => u)]
  simp [Finset.mem_range, ha]

lemma renderedOpacity_char (offset : ℚ) (N idx : ℕ) (h0 : 0 ≤ offset) :
    renderedOpacity offset N idx =
      if idx = (currentPanelIndex offset N).toNat then some (1 - crossfadeFrac offset N)
      else if idx = (currentPanelIndex offset N).toNat + 1 then some (crossfadeFrac offset N)
      else none := by
  have hpos : (0 : ℚ) ≤ scrollPosition offset N := by
    rw [scrollPosition]
    positivity
  have hi : 0 ≤ currentPanelIndex offset N := by
    rw [currentPanelIndex]
    exact Int.floor_nonneg.mpr hpos
  have e1 : ((idx : ℤ) = currentPanelIndex offset N)
      ↔ idx = (currentPanelIndex offset N).toNat := by omega
  have e2 : ((idx : ℤ) = currentPanelIndex offset N + 1)
      ↔ idx = (currentPanelIndex offset N).toNat + 1 := by omega
  rw [renderedOpacity]
  simp only [e1, e2]

lemma crossfade_case_low (offset : ℚ) (N : ℕ) (h0 : 0 ≤ offset)
    (ha : offset * N < (N : ℚ) - 1) :
    (selectedPanels offset N).length = 2 ∧ opacitySum offset N = 1 := by
  set i := currentPanelIndex offset N with hidef
  have hi0 : 0 ≤ i := by
    rw [hidef, currentPanelIndex]
    exact Int.floor_nonneg.mpr (by rw [scrollPosition]; positivity)
  have hiN : i < (N : ℤ) - 1 := by
    rw [hidef, currentPanelIndex]
    rw [Int.floor_lt]
    rw [scrollPosition]
    push_cast
    exact ha
  set a := i.toNat with hadef
  have haN : a + 1 < N := by omega
  have hchar : ∀ idx : ℕ, renderedOpacity offset N idx =
      if idx = a then some (1 - crossfadeFrac offset N)
      else if idx = a + 1 then some (crossfadeFrac offset N)
      else none := fun idx => renderedOpacity_char offset N idx h0
  constructor
  · rw [selectedPanels, length_filter_range]
    have key : ∀ idx : ℕ, (if (renderedOpacity offset N idx).isSome then (1:ℕ) else 0)
        = (if idx = a then 1 else if idx = a + 1 then 1 else 0) := by
      intro idx
      rw [hchar idx]
      by_cases h1 : idx = a
      · simp [h1]
      · by_cases h2 : idx = a + 1 <;> simp [h1, h2]
    rw [Finset.sum_congr rfl (fun idx _ => key idx)]
    rw [sum_double_ite N a (a + 1) (by omega) 1 1 (by omega) haN]
  · rw [opacitySum, sum_filterMap_range]
    have key : ∀ idx : ℕ, ((renderedOpacity offset N idx).getD 0)
        = (if idx = a then (1 - crossfadeFrac offset N)
           else if idx = a + 1 then crossfadeFrac offset N else 0) := by
      intro idx
      rw [hchar idx]
      by_cases h1 : idx = a
      · simp [h1]
      · by_cases h2 : idx = a + 1 <;> simp [h1, h2]
    rw [Finset.sum_congr rfl (fun idx _ => key idx)]
    rw [sum_double_ite N a (a + 1) (by omega) _ _ (by omega) haN]
    ring

lemma currentPanelIndex_last (offset : ℚ) (N : ℕ) (hN : 1 ≤ N)
    (hlo : (N : ℚ) - 1 ≤ offset * N) (hhi : offset < 1) :
    currentPanelIndex offset N = (N : ℤ) - 1 := by
  rw [currentPanelIndex, scrollPosition]
  rw [Int.floor_eq_iff]
  constructor
  · push_cast
    exact hlo
  · push_cast
    have hNpos : (0 : ℚ) < N := by
      have h1N : (1 : ℚ) ≤ (N : ℚ) := by exact_mod_cast hN
      linarith
    calc offset * N < 1 * N := mul_lt_mul_of_pos_right hhi hNpos
      _ = N := one_mul _
      _ ≤ N - 1 + 1 := by ring_nf; exact le_refl _

lemma crossfade_case_last (offset : ℚ) (N : ℕ) (hN : 1 ≤ N)
    (h0 : 0 ≤ offset) (hlo : (N : ℚ) - 1 ≤ offset * N) (hhi : offset < 1) :
    (selectedPanels offset N).length = 1
    ∧ opacitySum offset N = (N : ℚ) * (1 - offset)
    ∧ renderedOpacity offset N (N - 1) = some ((N : ℚ) * (1 - offset))
    ∧ (∀ idx, idx < N → idx ≠ N - 1 → renderedOpacity offset N idx = none) := by
  have hI : currentPanelIndex offset N = (N : ℤ) - 1 :=
    currentPanelIndex_last offset N hN hlo hhi
  have hIto : (currentPanelIndex offset N).toNat = N - 1 := by omega
  have hfrac : crossfadeFrac offset N = offset * N - ((N : ℚ) - 1) := by
    rw [crossfadeFrac, hI, scrollPosition]
    push_cast
    ring
  have hval : 1 - crossfadeFrac offset N = (N : ℚ) * (1 - offset) := by
    rw [hfrac]
    ring
  have hchar : ∀ idx : ℕ, idx < N → renderedOpacity offset N idx =
      if idx = N - 1 then some ((N : ℚ) * (1 - offset)) else none := by
    intro idx hidx
    rw [renderedOpacity_char offset N idx h0, hIto, hval]
    by_cases h1 : idx = N - 1
    · simp [h1]
    · have h2 : idx ≠ N - 1 + 1 := by omega
      simp [h1, h2]
  refine ⟨?_, ?_, ?_, ?_⟩
  · rw [selectedPanels, length_filter_range]
    have key : ∀ idx ∈ Finset.range N,
        (if (renderedOpacity offset N idx).isSome then (1 : ℕ) else 0)
          = (if idx = N - 1 then 1 else 0) := by
      intro idx hidx
      rw [hchar idx (Finset.mem_range.mp hidx)]
      by_cases h1 : idx = N - 1 <;> simp [h1]
    rw [Finset.sum_congr rfl key]
    exact sum_single_ite N (N - 1) 1 (by omega)
  · rw [opacitySum, sum_filterMap_range]
    have key : ∀ idx ∈ Finset.range N,
        ((renderedOpacity offset N idx).getD 0)
          = (if idx = N - 1 then (N : ℚ) * (1 - offset) else 0) := by
      intro idx hidx
      rw [hchar idx (Finset.mem_range.mp hidx)]
      by_cases h1 : idx = N - 1 <;> simp [h1]
    rw [Finset.sum_congr rfl key]
    exact sum_single_ite N (N - 1) _ (by omega)
  · rw [hchar (N - 1) (by omega)]
    simp
  · intro idx hidx hne
    rw [hchar idx hidx]
    simp [hne]

lemma crossfade_case_end (N : ℕ) :
    (selectedPanels 1 N).length = 0 ∧ opacitySum 1 N = 0
    ∧ ∀ idx, idx < N → renderedOpacity 1 N idx = none := by
  have hI : currentPanelIndex 1 N = (N : ℤ) := by
    rw [currentPanelIndex, scrollPosition, one_mul]
    exact Int.floor_natCast N
  have hchar : ∀ idx : ℕ, idx < N → renderedOpacity 1 N idx = none := by
    intro idx hidx
    rw [renderedOpacity, hI]
    have h1 : (idx : ℤ) ≠ (N : ℤ) := by omega
    have h2 : (idx : ℤ) ≠ (N : ℤ) + 1 := by omega
    simp [h1, h2]
  refine ⟨?_, ?_, hchar⟩
  · rw [selectedPanels, length_filter_range]
    have key : ∀ idx ∈ Finset.range N,
        (if (renderedOpacity 1 N idx).isSome then (1 : ℕ) else 0) = 0 := by
      intro idx hidx
      rw [hchar idx (Finset.mem_range.mp hidx)]
      simp
    rw [Finset.sum_congr rfl key]
    simp
  · rw [opacitySum, sum_filterMap_range]
    have key : ∀ idx ∈ Finset.range N, ((renderedOpacity 1 N idx).getD 0) = 0 := by
      intro idx hidx
      rw [hchar idx (Finset.mem_range.mp hidx)]
      rfl
    rw [Finset.sum_congr rfl key]
    simp

/-- C1 (amended): for a scroll offset in [0,1] and N ≥ 1 panels, the crossfade
selection behaves in three regimes rather than always selecting 1–2 panels with
opacity sum 1: while `offset·N < N−1`, exactly two panels are selected and their
opacities sum to exactly 1; once `offset·N ≥ N−1` but `offset < 1`, exactly one
panel (the last) is selected and the opacity sum is `N·(1−offset)`, which drops
from 1 to 0 instead of staying 1; at `offset = 1`, zero panels are selected and
the opacity sum is 0 (the code has no index clamp). -/
theorem crossfade_selection (offset : ℚ) (N : ℕ)
    (h0 : 0 ≤ offset) (h1 : offset ≤ 1) (hN : 1 ≤ N) :
    (offset * N < (N : ℚ) - 1 →
      (selectedPanels offset N).length = 2 ∧ opacitySum offset N = 1)
    ∧ ((N : ℚ) - 1 ≤ offset * N → offset < 1 →
      (selectedPanels offset N).length = 1
      ∧ opacitySum offset N = (N : ℚ) * (1 - offset))
    ∧ (offset = 1 → (selectedPanels offset N).length = 0 ∧ opacitySum offset N = 0) := by
  refine ⟨?_, ?_, ?_⟩
  · intro ha
    exact crossfade_case_low offset N h0 ha
  · intro hlo hhi
    obtain ⟨c1, c2, _, _⟩ := crossfade_case_last offset N hN h0 hlo hhi
    exact ⟨c1, c2⟩
  · intro heq
    subst heq
    obtain ⟨c1, c2, _⟩ := crossfade_case_end N
    exact ⟨c1, c2⟩

/-- C1 counterexample: at offset 1 (inside the claimed domain [0,1]) with the
code's own panel count N = 2, the claim "exactly 1 or 2 panels are selected and
their opacities sum to exactly 1" is false — zero panels are selected and the
sum is 0. -/
theorem crossfade_selection_claim_cex :
    ¬ (((selectedPanels 1 2).length = 1 ∨ (selectedPanels 1 2).length = 2)
      ∧ opacitySum 1 2 = 1) := by
  obtain ⟨c1, c2, _⟩ := crossfade_case_end 2
  rw [c1, c2]
  norm_num

/-- Witness for C1 at offset 1/4, N = 2 (two-panel crossfade regime). -/
theorem crossfade_selection_witness :
    (selectedPanels (1 / 4) 2).length = 2 ∧ opacitySum (1 / 4) 2 = 1 :=
  (crossfade_selection (1 / 4) 2 (by norm_num) (by norm_num) (by omega)).1
    (by push_cast; norm_num)

/-- C2 (amended): on the last stretch `(N−1)/N ≤ offset < 1` only the last
panel renders, with opacity `N·(1−offset)` — a value that decreases linearly to
0 as the offset approaches 1, not to 1 — and at `offset = 1` (past the last
panel) no panel renders at all: there is no index clamp producing a full-opacity
last panel. -/
theorem last_panel_fades_out (offset : ℚ) (N : ℕ) (hN : 1 ≤ N)
    (h0 : 0 ≤ offset) (hlo : (N : ℚ) - 1 ≤ offset * N) (hhi : offset < 1) :
    renderedOpacity offset N (N - 1) = some ((N : ℚ) * (1 - offset))
    ∧ (∀ idx, idx < N → idx ≠ N - 1 → renderedOpacity offset N idx = none)
    ∧ (∀ idx, idx < N → renderedOpacity 1 N idx = none) := by
  obtain ⟨_, _, c3, c4⟩ := crossfade_case_last offset N hN h0 hlo hhi
  obtain ⟨_, _, c5⟩ := crossfade_case_end N
  exact ⟨c3, c4, c5⟩

/-- C2 counterexample: with the code's panel count N = 2, at the boundary
offset 1 the last panel is not rendered at all (so not at full opacity), and at
offset 99/100 — within 1/100 of the boundary — its opacity is 1/50, refuting
"the last panel's opacity equals or converges to 1". -/
theorem last_panel_fades_out_claim_cex :
    renderedOpacity 1 2 1 ≠ some 1
    ∧ renderedOpacity 1 2 1 = none
    ∧ renderedOpacity (99 / 100) 2 1 = some (1 / 50) := by
  obtain ⟨_, _, c5⟩ := crossfade_case_end 2
  have h1 : renderedOpacity 1 2 1 = none := c5 1 (by omega)
  have h2 : renderedOpacity (99 / 100) 2 1 = some ((2 : ℚ) * (1 - 99 / 100)) := by
    obtain ⟨_, _, c3, _⟩ := crossfade_case_last (99 / 100) 2 (by omega) (by norm_num)
      (by push_cast; norm_num) (by norm_num)
    exact c3
  refine ⟨?_, h1, ?_⟩
  · rw [h1]
    simp
  · rw [h2]
    norm_num

/-- Witness for C2 at offset 3/4, N = 2 (last-panel stretch). -/
theorem last_panel_fades_out_witness :
    renderedOpacity (3 / 4) 2 1 = some (1 / 2) := by
  have h := (last_panel_fades_out (3 / 4) 2 (by omega) (by norm_num)
    (by push_cast; norm_num) (by norm_num)).1
  norm_num at h
  exact h

/-- C3: with an empty configured store domain or an empty access token, both
`storefrontQuery` and `shopifyFetch` reject immediately with their respective
configuration-error messages and issue no network request (their issued-request
list is empty), for every query and variables mapping. -/
theorem missing_config_rejects_without_request (cfg : ShopifyConfig)
    (net : HttpRequest → HttpResponse) (q : String) (v : Option Json)
    (h : cfg.domain = "" ∨ cfg.storefrontAccessToken = "") :
    storefrontQuery cfg net q v
        = ([], Except.error "Missing VITE_SHOPIFY_STORE_DOMAIN or VITE_SHOPIFY_STOREFRONT_TOKEN")
      ∧ shopifyFetch cfg net q v
        = ([], Except.error "Missing Shopify configuration (domain or token)") := by
  constructor
  · simp [storefrontQuery, h]
  · have hb : buildEndpoint cfg
        = Except.error "Missing Shopify configuration (domain or token)" := by
      apply buildEndpoint_error
      rcases h with h | h
      · left
        rw [h]
        decide
      · right
        exact h
    unfold shopifyFetch
    rw [hb]

/-- Witness for C3 at a concrete empty-domain configuration. -/
theorem missing_config_rejects_without_request_witness :
    storefrontQuery (ShopifyConfig.mk "" "tok" "2026-01")
        (fun _ => HttpResponse.mk 200 (Except.ok Json.null)) "q" none
        = ([], Except.error "Missing VITE_SHOPIFY_STORE_DOMAIN or VITE_SHOPIFY_STOREFRONT_TOKEN")
      ∧ shopifyFetch (ShopifyConfig.mk "" "tok" "2026-01")
        (fun _ => HttpResponse.mk 200 (Except.ok Json.null)) "q" none
        = ([], Except.error "Missing Shopify configuration (domain or token)") :=
  missing_config_rejects_without_request _ _ _ _ (Or.inl rfl)

/-- C4: for every collection handle, when the (2xx, well-formed) response's
`collectionByHandle` is absent, null, or a collection whose `products.edges`
list is empty, `getCollectionProducts` returns an empty list and does not
throw. -/
theorem getCollectionProducts_missing_or_empty (cfg : ShopifyConfig)
    (net : HttpRequest → HttpResponse) (handle : String) (first : Int)
    (hd : cfg.domain ≠ "") (ht : cfg.storefrontAccessToken ≠ "")
    (st : Nat) (h1 : 200 ≤ st) (h2 : st < 300)
    (col : Option Json)
    (hcol : col = none ∨ col = some Json.null
      ∨ ∃ t, col = some (Json.obj
          [("title", t), ("products", Json.obj [("edges", Json.arr [])])]))
    (hnet : ∀ r, net r = HttpResponse.mk st
        (Except.ok (Json.obj [("data",
          Json.obj ((match col with
            | none => []
            | some c => [("collectionByHandle", c)])))]))) :
    (getCollectionProducts cfg net handle first).2 = Except.ok [] := by
  rcases hcol with rfl | rfl | ⟨t, rfl⟩ <;>
    simp [getCollectionProducts, storefrontQuery, hd, ht, hnet, HttpResponse.respOk,
      h1, h2, jsAccess, jsGet, jsGetFields, jsTruthyOpt, jsTruthy, shapeEdges]

/-- Witness for C4: a concrete response whose data object lacks
`collectionByHandle` yields the empty product list. -/
theorem getCollectionProducts_missing_or_empty_witness :
    (getCollectionProducts (ShopifyConfig.mk "shop.example" "tok" "2026-01")
      (fun _ => HttpResponse.mk 200 (Except.ok (Json.obj [("data", Json.obj [])])))
      "hoodies-1" 12).2 = Except.ok [] :=
  getCollectionProducts_missing_or_empty _ _ "hoodies-1" 12 (by decide) (by decide)
    200 (by omega) (by omega) none (Or.inl rfl) (fun _ => rfl)

/-- C5: the collection-shaping path stores the price as the verbatim
concatenation `amount ++ " " ++ currencyCode` for every well-formed product
node; in particular a node with minimum-variant price amount "19.5" and
currency "USD" yields the literal string "19.5 USD" via the collection path,
while the same node via `formatShopifyProduct` yields the dollar-prefixed
locale-formatted string "$19.5". -/
theorem collection_vs_product_price_format
    (id title handle amount currency : String) (featured : Option String) :
    (shapeCollectionEdge (Json.obj [("node",
        mkCollectionProductNode id title handle featured amount currency)])).map
      (fun vm => vm.price) = Except.ok (amount ++ " " ++ currency)
    ∧ (shapeCollectionEdge (Json.obj [("node", dualPriceNode)])).map (fun vm => vm.price)
        = Except.ok "19.5 USD"
    ∧ (formatShopifyProduct dualPriceNode).map (fun vm => vm.price) = Except.ok "$19.5" := by
  refine ⟨?_, ?_, ?_⟩
  · cases featured <;>
      simp [shapeCollectionEdge, mkCollectionProductNode, jsAccess, jsGet, jsGetFields,
        jsOptGet, jsToStringOpt, jsToString, Except.map]
  · simp [shapeCollectionEdge, dualPriceNode, jsAccess, jsGet, jsGetFields,
      jsOptGet, jsToStringOpt, jsToString, Except.map]
  · simp [formatShopifyProduct, dualPriceNode, jsAccess, jsGet, jsGetFields, jsOptGet,
      jsOptIndexGet, jsOrJson, jsTruthy, jsToString, parseFloatQ_nineteen_five,
      toLocaleStringQ_nineteen_five, List.get?, Except.map]

/-- C6: for a status-200 response whose body carries a populated `errors` array
with first entry message `X` (made of characters `JSON.stringify` leaves
unescaped), both `shopifyFetch` and `storefrontQuery` reject with an error
whose message contains `X`. -/
theorem status200_errors_array_rejects (cfg : ShopifyConfig) (q : String) (v : Option Json)
    (X : String) (rest : List Json) (d : Json)
    (hd : cfg.domain ≠ "") (ht : cfg.storefrontAccessToken ≠ "")
    (hd2 : stripTrailingSlashes (stripProtocol cfg.domain) ≠ "")
    (hX : ∀ c ∈ X.toList, jsonEscapeChar c = String.singleton c) :
    (∃ m, (shopifyFetch cfg (fun _ => HttpResponse.mk 200 (Except.ok (Json.obj
        [("errors", Json.arr (Json.obj [("message", Json.str X)] :: rest)), ("data", d)])))
        q v).2 = Except.error m ∧ containsStr m X)
    ∧ (∃ m, (storefrontQuery cfg (fun _ => HttpResponse.mk 200 (Except.ok (Json.obj
        [("errors", Json.arr (Json.obj [("message", Json.str X)] :: rest)), ("data", d)])))
        q v).2 = Except.error m ∧ containsStr m X) := by
  constructor
  · refine ⟨jsOrString X "Shopify API error", ?_, ?_⟩
    · simp [shopifyFetch, buildEndpoint_ok cfg hd2 ht, HttpResponse.respOk, jsAccess, jsGet,
        jsGetFields, jsTruthyOpt, jsTruthy, jsOptGet, jsOptIndexGet, List.get?,
        jsOrToString_str]
    · by_cases h : X = ""
      · rw [h]
        exact containsStr_empty _
      · rw [jsOrString, if_neg h]
        exact containsStr_self _
  · refine ⟨"Storefront API error: " ++ jsonStringify 0
        (Json.arr (Json.obj [("message", Json.str X)] :: rest)), ?_, ?_⟩
    · simp [storefrontQuery, hd, ht, HttpResponse.respOk, jsAccess, jsGet, jsGetFields,
        jsTruthyOpt, jsTruthy]
    · exact containsStr_append_left _ _ _ (containsStr_errarr_stringify X rest hX)

/-- Witness for C6 with the literal message "X". -/
theorem status200_errors_array_rejects_witness :
    (∃ m, (shopifyFetch (ShopifyConfig.mk "shop.example" "tok" "2026-01")
        (fun _ => HttpResponse.mk 200 (Except.ok (Json.obj
          [("errors", Json.arr (Json.obj [("message", Json.str "X")] :: [])),
           ("data", Json.null)]))) "q" none).2 = Except.error m ∧ containsStr m "X")
    ∧ (∃ m, (storefrontQuery (ShopifyConfig.mk "shop.example" "tok" "2026-01")
        (fun _ => HttpResponse.mk 200 (Except.ok (Json.obj
          [("errors", Json.arr (Json.obj [("message", Json.str "X")] :: [])),
           ("data", Json.null)]))) "q" none).2 = Except.error m ∧ containsStr m "X") :=
  status200_errors_array_rejects _ "q" none "X" [] Json.null
    (by decide) (by decide) (by decide) (by decide)

/-- C7 counterexample: on a non-2xx response (status 500) with a parseable body
carrying no `errors`, `storefrontQuery`'s thrown error serializes the body and
does not carry the HTTP status — its message does not contain "500" — refuting
the claim that the non-2xx failure is surfaced carrying the HTTP status in both
clients. -/
theorem distinct_error_channels_cex :
    (storefrontQuery (ShopifyConfig.mk "shop.example" "tok" "2026-01")
      (fun _ => HttpResponse.mk 500 (Except.ok (Json.obj [("data", Json.null)]))) "q" none).2
      = Except.error "Storefront API error: \x7b\n  \"data\": null\n\x7d"
    ∧ ¬ containsStr "Storefront API error: \x7b\n  \"data\": null\n\x7d" "500" := by
  constructor
  · rfl
  · decide

/-- C7 (amended): the three failure conditions all reject in both clients, but
the payloads differ per client: `shopifyFetch` surfaces an unparseable body as
the fixed "Invalid response from Shopify" message, a non-2xx status (body
without an error message) as a message carrying the status, and a populated
`errors` array as the first error's message (or a generic fallback);
`storefrontQuery` rethrows the parse failure raw, and surfaces both non-2xx and
API-error responses as "Storefront API error: " followed by the serialized
errors list when present and otherwise the serialized body — without the HTTP
status. -/
theorem distinct_error_channels (cfg : ShopifyConfig) (q : String) (v : Option Json)
    (hd : cfg.domain ≠ "") (ht : cfg.storefrontAccessToken ≠ "")
    (hd2 : stripTrailingSlashes (stripProtocol cfg.domain) ≠ "") :
    (∀ pm st, (shopifyFetch cfg (fun _ => HttpResponse.mk st (Except.error pm)) q v).2
        = Except.error "Invalid response from Shopify"
      ∧ (storefrontQuery cfg (fun _ => HttpResponse.mk st (Except.error pm)) q v).2
        = Except.error pm)
    ∧ (∀ st d, (300 ≤ st ∨ st < 200) →
        (shopifyFetch cfg (fun _ => HttpResponse.mk st
            (Except.ok (Json.obj [("data", d)]))) q v).2
          = Except.error ("Shopify API error (" ++ toString st ++ ")")
        ∧ (storefrontQuery cfg (fun _ => HttpResponse.mk st
            (Except.ok (Json.obj [("data", d)]))) q v).2
          = Except.error ("Storefront API error: "
              ++ jsonStringify 0 (Json.obj [("data", d)])))
    ∧ (∀ m rest d, (shopifyFetch cfg (fun _ => HttpResponse.mk 200 (Except.ok (Json.obj
          [("errors", Json.arr (Json.obj [("message", Json.str m)] :: rest)), ("data", d)])))
          q v).2 = Except.error (jsOrString m "Shopify API error")
        ∧ (storefrontQuery cfg (fun _ => HttpResponse.mk 200 (Except.ok (Json.obj
          [("errors", Json.arr (Json.obj [("message", Json.str m)] :: rest)), ("data", d)])))
          q v).2 = Except.error ("Storefront API error: "
            ++ jsonStringify 0 (Json.arr (Json.obj [("message", Json.str m)] :: rest)))) := by
  refine ⟨?_, ?_, ?_⟩
  · intro pm st
    constructor
    · simp [shopifyFetch, buildEndpoint_ok cfg hd2 ht]
    · simp [storefrontQuery, hd, ht]
  · intro st d hst
    have hok : HttpResponse.respOk (HttpResponse.mk st (Except.ok (Json.obj [("data", d)])))
        = false := by
      rcases hst with h | h <;> simp [HttpResponse.respOk] <;> omega
    constructor
    · simp [shopifyFetch, buildEndpoint_ok cfg hd2 ht, hok, jsOptGet, jsGet, jsGetFields,
        jsOptIndexGet, jsOrToString, jsTruthyOpt]
    · simp [storefrontQuery, hd, ht, hok, jsAccess, jsGet, jsGetFields, jsTruthyOpt]
  · intro m rest d
    constructor
    · simp [shopifyFetch, buildEndpoint_ok cfg hd2 ht, HttpResponse.respOk, jsAccess, jsGet,
        jsGetFields, jsTruthyOpt, jsTruthy, jsOptGet, jsOptIndexGet, List.get?,
        jsOrToString_str]
    · simp [storefrontQuery, hd, ht, HttpResponse.respOk, jsAccess, jsGet, jsGetFields,
        jsTruthyOpt, jsTruthy]

/-- Witness for C7 (amended) at a concrete non-2xx response. -/
theorem distinct_error_channels_witness :
    (shopifyFetch (ShopifyConfig.mk "shop.example" "tok" "2026-01")
      (fun _ => HttpResponse.mk 500 (Except.ok (Json.obj [("data", Json.null)]))) "q" none).2
      = Except.error "Shopify API error (500)" :=
  ((distinct_error_channels (ShopifyConfig.mk "shop.example" "tok" "2026-01") "q" none
    (by decide) (by decide) (by decide)).2.1 500 Json.null (Or.inl (by omega))).1

/-- C8: if any panel's collection query rejects, the whole `Promise.all` batch
fails: the products-by-handle mapping is left exactly as it was (no partial
data is applied) and a single top-level error message is recorded. -/
theorem batch_failure_is_atomic (prev : OverlayState)
    (fetchProducts : String → Except String (List ShopifyProductVM))
    (h : ∃ p ∈ PANELS, ∃ e, fetchProducts p.collectionHandle = Except.error e) :
    (cardsOverlayLoadEffect fetchProducts false prev).productsByHandle = prev.productsByHandle
    ∧ ∃ msg, (cardsOverlayLoadEffect fetchProducts false prev).error = some msg := by
  rcases h with ⟨p, hp, e, he⟩
  simp [PANELS] at hp
  cases hfirst : fetchProducts "hoodies-1" <;> cases hsecond : fetchProducts "shirts" <;>
    rcases hp with rfl | rfl <;>
      simp_all [cardsOverlayLoadEffect, PANELS, promiseAll, commitBatch]

/-- Witness for C8: every panel rejecting with "boom" leaves the previous
mapping intact and records one error message. -/
theorem batch_failure_is_atomic_witness :
    (cardsOverlayLoadEffect (fun _ => Except.error "boom") false
        (OverlayState.mk [("x", [])] none)).productsByHandle = [("x", [])]
    ∧ ∃ msg, (cardsOverlayLoadEffect (fun _ => Except.error "boom") false
        (OverlayState.mk [("x", [])] none)).error = some msg :=
  batch_failure_is_atomic _ _
    ⟨Panel.mk "hoodies" "HOODIES" "hoodies-1", List.mem_cons_self _ _, "boom", rfl⟩

/-- C9: once the cancellation flag is set (the overlay was unmounted before the
batch settled), the post-await commit step applies no state update at all —
neither the products-by-handle commit nor the error message — whether the
batch resolved or rejected; the step is a total function of the model, so the
cleanup path cannot throw. -/
theorem cancelled_commit_is_identity (st : OverlayState)
    (batch : Except String (List (String × List ShopifyProductVM))) :
    commitBatch true st batch = st := by
  cases batch <;> simp [commitBatch]

/-- C10: for every well-formed product node whose variants edge list is absent
or empty, `formatShopifyProduct` does not throw and produces price "$0",
priceVal 0, currency code "USD" and an undefined variant id. -/
theorem formatShopifyProduct_no_variants (id title handle desc : String)
    (imgUrls : List String) (variantsEmpty : Bool) :
    (formatShopifyProduct (Json.obj
        ([("id", Json.str id), ("title", Json.str title), ("handle", Json.str handle),
          ("description", Json.str desc),
          ("images", Json.obj [("edges", Json.arr (imgUrls.map (fun u =>
            Json.obj [("node", Json.obj [("url", Json.str u)])])))])]
          ++ (if variantsEmpty then [("variants", Json.obj [("edges", Json.arr [])])]
              else [])))).map
      (fun vm => (vm.price, vm.priceVal, vm.currencyCode, vm.variantId))
      = Except.ok ("$0", some (0 : ℚ), Json.str "USD", none) := by
  cases variantsEmpty <;>
    simp [formatShopifyProduct, jsAccess, jsGet, jsGetFields, jsOptGet, jsOptIndexGet,
      jsOrJson, jsTruthy, jsToString, parseFloatQ_zero, toLocaleStringQ_zero,
      List.get?, Except.map]
